import Mathlib

/-!
Verification of the quantum-circuit-drawer library: a shallow embedding of
the circuit model (Circuit.ts), the gate classes (HadamardGate.ts,
PauliXGate.ts, PauliYGate.ts, PauliZGate.ts, CNOTGate.ts, RotationGate.ts),
the style configuration (styles.ts) and the SVG renderer (Renderer.ts).

Modelling conventions:
- JavaScript numbers are modelled as exact rationals (the renderer only
  adds, multiplies and halves style values, and the claims are algebraic
  identities over those operations); qubit indices are integers.
- The svg.js surface is modelled as the list of primitive draw calls the
  renderer issues, in order; each fluent chain such as
  rect(w, h).move(x, y).fill(f).stroke(sw, sc) becomes one list element
  recording the same arguments.
- Constructors that throw are modelled as Except String returning either
  an error message or the constructed object.
-/

/-- One primitive call to the svg.js drawing surface, with the arguments
the renderer passes. The text call also sets the constant attributes
text-anchor middle and dominant-baseline middle; being constants they are
not recorded as fields. For circles, move gives the top-left corner of the
bounding box and the optional stroke is a width and a color. -/
inductive SvgCall where
  | size (width height : ℚ)
  | line (x1 y1 x2 y2 : ℚ) (strokeWidth : ℚ) (strokeColor : String)
  | rect (w h : ℚ) (moveX moveY : ℚ) (fill : String) (strokeWidth : ℚ) (strokeColor : String)
  | circle (diameter : ℚ) (moveX moveY : ℚ) (fill : String) (stroke : Option (ℚ × String))
  | text (content : String) (x y : ℚ) (fontSize : ℚ) (fontFamily : String) (fontColor : String)
  deriving DecidableEq, Repr

/-- StyleConfig from styles.ts: the twelve numeric and color options. -/
structure StyleConfig where
  qubitSpacing : ℚ
  gateSpacing : ℚ
  gateWidth : ℚ
  gateHeight : ℚ
  lineColor : String
  lineWidth : ℚ
  gateFill : String
  gateStroke : String
  gateStrokeWidth : ℚ
  fontSize : ℚ
  fontFamily : String
  fontColor : String
  deriving DecidableEq, Repr

/-- DefaultStyleConfig from styles.ts. -/
def DefaultStyleConfig : StyleConfig :=
  { qubitSpacing := 50
    gateSpacing := 70
    gateWidth := 40
    gateHeight := 40
    lineColor := "#000"
    lineWidth := 2
    gateFill := "#fff"
    gateStroke := "#000"
    gateStrokeWidth := 2
    fontSize := 14
    fontFamily := "Arial, sans-serif"
    fontColor := "#000" }

/-- IGate from gates/IGate.ts: a display name and the list of qubit
indices the gate acts on. -/
structure IGate where
  name : String
  qubits : List ℤ
  deriving DecidableEq, Repr

/-- HadamardGate constructor from gates/HadamardGate.ts: throws when the
qubit index is negative, otherwise builds the gate with name H. -/
def HadamardGate (qubit : ℤ) : Except String IGate :=
  if qubit < 0 then
    Except.error "Qubit index must be a non-negative integer."
  else
    Except.ok { name := "H", qubits := [qubit] }

/-- PauliXGate constructor from gates/PauliXGate.ts. -/
def PauliXGate (qubit : ℤ) : Except String IGate :=
  if qubit < 0 then
    Except.error "Qubit index must be a non-negative integer."
  else
    Except.ok { name := "X", qubits := [qubit] }

/-- PauliYGate constructor from gates/PauliYGate.ts. -/
def PauliYGate (qubit : ℤ) : Except String IGate :=
  if qubit < 0 then
    Except.error "Qubit index must be a non-negative integer."
  else
    Except.ok { name := "Y", qubits := [qubit] }

/-- PauliZGate constructor from gates/PauliZGate.ts. -/
def PauliZGate (qubit : ℤ) : Except String IGate :=
  if qubit < 0 then
    Except.error "Qubit index must be a non-negative integer."
  else
    Except.ok { name := "Z", qubits := [qubit] }

/-- CNOTGate constructor from gates/CNOTGate.ts: throws only when the
control and target indices coincide (the source performs no negativity
check for this gate), otherwise builds the gate with name CNOT and the
qubit list control first, target second. -/
def CNOTGate (controlQubit targetQubit : ℤ) : Except String IGate :=
  if controlQubit = targetQubit then
    Except.error "Control qubit and target qubit must be different."
  else
    Except.ok { name := "CNOT", qubits := [controlQubit, targetQubit] }

/-- The ECMAScript Number.prototype.toFixed with one fraction digit,
on exact rationals: the result denotes the multiple of 1/10 nearest to
the input, ties resolved away from zero (ECMA-262 picks the larger
numerator after extracting the sign), printed with exactly one digit
after the decimal point. -/
def toFixed1 (x : ℚ) : String :=
  if x < 0 then
    let n : ℤ := ⌊(-x) * 10 + 1 / 2⌋
    "-" ++ toString (n / 10) ++ "." ++ toString (n % 10)
  else
    let n : ℤ := ⌊x * 10 + 1 / 2⌋
    toString (n / 10) ++ "." ++ toString (n % 10)

/-- RotationGate object from gates/RotationGate.ts: the formatted name,
the qubit list, and the angle field that keeps the value passed to the
constructor. The angle is measured as a rational multiple of pi (the
JavaScript argument angle equals this field times pi), so the degree
conversion angle times 180 over pi of the source becomes the exact
product of this field with 180. -/
structure RotationGateData where
  name : String
  qubits : List ℤ
  angle : ℚ
  deriving DecidableEq, Repr

/-- View a rotation gate through the IGate interface consumed by the
renderer (name and qubits only). -/
def RotationGateData.toIGate (r : RotationGateData) : IGate :=
  { name := r.name, qubits := r.qubits }

/-- RotationGate constructor from gates/RotationGate.ts: throws when the
qubit index is negative or the axis is not one of X, Y, Z; otherwise it
formats the angle in degrees with one decimal via toFixed and stores the
name R axis ( degrees ° ), the qubit, and the raw angle. The angle
argument is the rational multiple of pi described at RotationGateData,
so the source expression angle times (180 / Math.PI) is angle times 180
here; for the angles the specification examines (pi over 4 and pi) the
double-precision source computation is exact, so the idealisation agrees
with the code. -/
def RotationGate (axis : String) (qubit : ℤ) (angle : ℚ) : Except String RotationGateData :=
  if qubit < 0 then
    Except.error "Qubit index must be a non-negative integer."
  else if axis ∈ (["X", "Y", "Z"] : List String) then
    Except.ok
      { name := "R" ++ axis ++ "(" ++ toFixed1 (angle * 180) ++ "°)"
        qubits := [qubit]
        angle := angle }
  else
    Except.error "Axis must be X, Y, or Z."

/-- Circuit from Circuit.ts: the qubit count and the ordered gate list. -/
structure Circuit where
  numQubits : ℤ
  gates : List IGate
  deriving DecidableEq, Repr

/-- Circuit constructor from Circuit.ts: stores numQubits without any
validation and starts with an empty gate list. -/
def Circuit.construct (numQubits : ℤ) : Circuit :=
  { numQubits := numQubits, gates := [] }

/-- Circuit.addGate from Circuit.ts: pushes the gate onto the end of the
gate list. -/
def Circuit.addGate (c : Circuit) (gate : IGate) : Circuit :=
  { c with gates := c.gates ++ [gate] }

namespace Renderer

/-- The test gate.name.startsWith("R") from Renderer.ts line 95. For a
one-character pattern the JavaScript test holds exactly when the first
character of the name is R, which is how it is modelled (the Lean
library startsWith works on byte positions and is not the source
function either way). -/
def startsWithR (s : String) : Bool :=
  s.data.head? == some 'R'

/-- The three draw strategies the dispatch in Renderer.draw lines 92 to
99 selects from. -/
inductive DrawStrategy where
  | cnot
  | rotationBox
  | singleBox
  deriving DecidableEq, Repr

/-- The dispatch of Renderer.draw lines 92 to 99: name equal to CNOT
selects the CNOT strategy, else a name starting with R selects the
rotation strategy, else the single-qubit box strategy. -/
def classify (g : IGate) : DrawStrategy :=
  if g.name = "CNOT" then DrawStrategy.cnot
  else if startsWithR g.name then DrawStrategy.rotationBox
  else DrawStrategy.singleBox

/-- The shared shape of the single-qubit box branches (Renderer.ts lines
100 to 114 for plain gates, drawRotationGate lines 184 to 198 for
rotation gates, which differ only in the label font size): for each
qubit of the gate, a rectangle of the configured width and height whose
top edge sits half a gate height above the baseline, then the centered
label. -/
def boxCalls (s : StyleConfig) (nm : String) (fs : ℚ) (x : ℚ) : List ℤ → List SvgCall
  | [] => []
  | qubit :: qs =>
    SvgCall.rect s.gateWidth s.gateHeight (x - s.gateWidth / 2)
        (s.qubitSpacing * ((qubit : ℚ) + 1) - s.gateHeight / 2)
        s.gateFill s.gateStrokeWidth s.gateStroke
      :: SvgCall.text nm x
        ((s.qubitSpacing * ((qubit : ℚ) + 1) - s.gateHeight / 2) + s.gateHeight / 2)
        fs s.fontFamily s.fontColor
      :: boxCalls s nm fs x qs

/-- The single-qubit gate branch of Renderer.draw (lines 100 to 114). -/
def drawSingleBoxGate (s : StyleConfig) (g : IGate) (x : ℚ) : List SvgCall :=
  boxCalls s g.name s.fontSize x g.qubits

/-- Renderer.drawRotationGate (lines 172 to 199): same rectangle and
label as the single-qubit branch but with the font size reduced by 2. -/
def drawRotationGate (s : StyleConfig) (g : IGate) (x : ℚ) : List SvgCall :=
  boxCalls s g.name (s.fontSize - 2) x g.qubits

/-- Renderer.drawCNOTGate (lines 128 to 162). The source reads
gate.qubits[0] and gate.qubits[1]; JavaScript indexing past the end
yields undefined, modelled here with getD and default 0 (claim C10 shows
every gate dispatched to this strategy has exactly two qubits, so the
default is never consulted for gates built by the shipped
constructors). -/
def drawCNOTGate (s : StyleConfig) (g : IGate) (x : ℚ) : List SvgCall :=
  let controlQubit := g.qubits.getD 0 0
  let targetQubit := g.qubits.getD 1 0
  let y1 := s.qubitSpacing * ((controlQubit : ℚ) + 1)
  let y2 := s.qubitSpacing * ((targetQubit : ℚ) + 1)
  let gateSize : ℚ := 20
  [ SvgCall.circle 8 (x - 4) (y1 - 4) s.gateStroke none,
    SvgCall.line x y1 x y2 s.lineWidth s.lineColor,
    SvgCall.circle gateSize (x - gateSize / 2) (y2 - gateSize / 2) "#fff"
      (some (s.gateStrokeWidth, s.gateStroke)),
    SvgCall.line (x - gateSize / 4) y2 (x + gateSize / 4) y2 s.gateStrokeWidth s.gateStroke,
    SvgCall.line x (y2 - gateSize / 4) x (y2 + gateSize / 4) s.gateStrokeWidth s.gateStroke ]

/-- The calls one gate contributes, per the dispatch of lines 92 to 99. -/
def gateCalls (s : StyleConfig) (g : IGate) (x : ℚ) : List SvgCall :=
  match classify g with
  | DrawStrategy.cnot => drawCNOTGate s g x
  | DrawStrategy.rotationBox => drawRotationGate s g x
  | DrawStrategy.singleBox => drawSingleBoxGate s g x

/-- The gates.forEach((gate, index) => ...) loop of Renderer.draw lines
89 to 116: the gate at position index is drawn at
x = gateSpacing * (index + 1). -/
def drawGatesFrom (s : StyleConfig) : ℕ → List IGate → List SvgCall
  | _, [] => []
  | j, g :: gs =>
    gateCalls s g (s.gateSpacing * ((j : ℚ) + 1)) ++ drawGatesFrom s (j + 1) gs

/-- Renderer.draw (lines 58 to 117): resize the canvas, draw one
baseline per qubit, then draw the gates in order. -/
def draw (c : Circuit) (s : StyleConfig) : List SvgCall :=
  let totalWidth := s.gateSpacing * ((c.gates.length : ℚ) + 1)
  SvgCall.size (totalWidth + s.gateSpacing) (s.qubitSpacing * ((c.numQubits : ℚ) + 1))
    :: ((List.range c.numQubits.toNat).map fun (i : ℕ) =>
          SvgCall.line 0 (s.qubitSpacing * ((i : ℚ) + 1)) totalWidth
            (s.qubitSpacing * ((i : ℚ) + 1)) s.lineWidth s.lineColor)
    ++ drawGatesFrom s 0 c.gates

/-- Running draw against a surface that already holds some calls appends
the emitted sequence to it (svg.js accumulates elements in issue
order). -/
def drawOn (c : Circuit) (s : StyleConfig) (surface : List SvgCall) : List SvgCall :=
  surface ++ draw c s

end Renderer

/-! ## Helper lemmas -/

lemma startsWithR_append (s : String) : Renderer.startsWithR ("R" ++ s) = true := by
  simp [Renderer.startsWithR, String.data_append]

lemma append_R_ne_CNOT (s : String) : ("R" ++ s) ≠ "CNOT" := by
  intro h
  have hd : (("R" : String) ++ s).data = "CNOT".data := by rw [h]
  simp [String.data_append] at hd

lemma classify_R_append (s : String) (qs : List ℤ) :
    Renderer.classify { name := "R" ++ s, qubits := qs } = Renderer.DrawStrategy.rotationBox := by
  simp [Renderer.classify, append_R_ne_CNOT, startsWithR_append]

lemma drawGatesFrom_decompose (s : StyleConfig) (gs : List IGate) (j0 j : ℕ) (g : IGate)
    (h : gs[j]? = some g) :
    ∃ pre post, Renderer.drawGatesFrom s j0 gs =
      pre ++ Renderer.gateCalls s g (s.gateSpacing * (((j0 : ℚ) + (j : ℚ)) + 1)) ++ post := by
  induction gs generalizing j0 j with
  | nil => simp at h
  | cons g0 gs ih =>
    cases j with
    | zero =>
      simp only [List.getElem?_cons_zero, Option.some.injEq] at h
      subst h
      refine ⟨[], Renderer.drawGatesFrom s (j0 + 1) gs, ?_⟩
      simp [Renderer.drawGatesFrom]
    | succ j =>
      simp only [List.getElem?_cons_succ] at h
      obtain ⟨pre, post, hp⟩ := ih (j0 + 1) j h
      refine ⟨Renderer.gateCalls s g0 (s.gateSpacing * ((j0 : ℚ) + 1)) ++ pre, post, ?_⟩
      have hc : ((j0 : ℚ) + 1) + (j : ℚ) + 1 = (j0 : ℚ) + ((j : ℚ) + 1) + 1 := by ring
      simp only [Renderer.drawGatesFrom, hp]
      push_cast
      rw [hc]
      simp [List.append_assoc]

lemma mem_drawGatesFrom (s : StyleConfig) (gs : List IGate) (j : ℕ) (g : IGate)
    (h : gs[j]? = some g) (call : SvgCall)
    (hc : call ∈ Renderer.gateCalls s g (s.gateSpacing * ((j : ℚ) + 1))) :
    call ∈ Renderer.drawGatesFrom s 0 gs := by
  obtain ⟨pre, post, hp⟩ := drawGatesFrom_decompose s gs 0 j g h
  rw [hp]
  simp only [Nat.cast_zero, zero_add] at *
  simp [List.mem_append]
  exact Or.inr (Or.inl hc)

lemma mem_boxCalls (s : StyleConfig) (nm : String) (fs x : ℚ) (qs : List ℤ) (q : ℤ)
    (hq : q ∈ qs) :
    SvgCall.rect s.gateWidth s.gateHeight (x - s.gateWidth / 2)
      (s.qubitSpacing * ((q : ℚ) + 1) - s.gateHeight / 2)
      s.gateFill s.gateStrokeWidth s.gateStroke ∈ Renderer.boxCalls s nm fs x qs := by
  induction qs with
  | nil => simp at hq
  | cons q0 qs ih =>
    rcases List.mem_cons.mp hq with h | h
    · subst h
      simp [Renderer.boxCalls]
    · simp only [Renderer.boxCalls, List.mem_cons]
      exact Or.inr (Or.inr (ih h))

/-! ## Claim C1 -/

/-- Claim C1, counterexample: on a one-qubit circuit with no gates and
the default style, draw resizes the canvas to width 140 = gateSpacing
times (gateCount + 2), not gateSpacing times (gateCount + 1) = 70 as the
claim states. -/
theorem claim_C1_counterexample :
    (Renderer.draw (Circuit.construct 1) DefaultStyleConfig).head? =
      some (SvgCall.size 140 100)
    ∧ (140 : ℚ) ≠ DefaultStyleConfig.gateSpacing * (((Circuit.construct 1).gates.length : ℚ) + 1) := by
  constructor
  · norm_num [Renderer.draw, DefaultStyleConfig, Circuit.construct]
  · norm_num [DefaultStyleConfig, Circuit.construct]

/-- Claim C1, amended: for every circuit and style, the first call draw
issues resizes the canvas to width gateSpacing times (gateCount + 2)
(the source adds one more gateSpacing to gateSpacing times
(gateCount + 1)) and height qubitSpacing times (numQubits + 1). -/
theorem claim_C1_amended (c : Circuit) (s : StyleConfig) :
    (Renderer.draw c s).head? =
      some (SvgCall.size (s.gateSpacing * ((c.gates.length : ℚ) + 2))
        (s.qubitSpacing * ((c.numQubits : ℚ) + 1))) := by
  have h : s.gateSpacing * ((c.gates.length : ℚ) + 1) + s.gateSpacing
      = s.gateSpacing * ((c.gates.length : ℚ) + 2) := by ring
  simp [Renderer.draw, h]

/-! ## Claim C2 -/

/-- Claim C2, counterexample: a CNOT gate with negative control index -1
is constructed successfully, while the claim requires construction to
fail for a negative qubit index on two-qubit gates as well. -/
theorem claim_C2_counterexample : (CNOTGate (-1) 0).isOk = true := by
  simp [CNOTGate, Except.isOk, Except.toBool]

/-- Claim C2, amended: construction fails exactly when a single-qubit
gate (Hadamard, Pauli, rotation) gets a negative qubit index, or a
rotation gate gets an axis outside X, Y, Z, or the two indices of a CNOT
gate are equal; the CNOT constructor performs no negativity check, so a
CNOT with a negative control or target index but distinct indices is
constructed successfully. -/
theorem claim_C2_amended :
    (∀ q : ℤ, (HadamardGate q).isOk = true ↔ 0 ≤ q)
    ∧ (∀ q : ℤ, (PauliXGate q).isOk = true ↔ 0 ≤ q)
    ∧ (∀ q : ℤ, (PauliYGate q).isOk = true ↔ 0 ≤ q)
    ∧ (∀ q : ℤ, (PauliZGate q).isOk = true ↔ 0 ≤ q)
    ∧ (∀ cq tq : ℤ, (CNOTGate cq tq).isOk = true ↔ cq ≠ tq)
    ∧ (∀ (a : String) (q : ℤ) (θ : ℚ),
        (RotationGate a q θ).isOk = true ↔ (0 ≤ q ∧ (a = "X" ∨ a = "Y" ∨ a = "Z"))) := by
  refine ⟨?_, ?_, ?_, ?_, ?_, ?_⟩
  · intro q
    by_cases h : q < 0
    · simp [HadamardGate, h, Except.isOk, Except.toBool]
    · simp [HadamardGate, h, Except.isOk, Except.toBool]
      omega
  · intro q
    by_cases h : q < 0
    · simp [PauliXGate, h, Except.isOk, Except.toBool]
    · simp [PauliXGate, h, Except.isOk, Except.toBool]
      omega
  · intro q
    by_cases h : q < 0
    · simp [PauliYGate, h, Except.isOk, Except.toBool]
    · simp [PauliYGate, h, Except.isOk, Except.toBool]
      omega
  · intro q
    by_cases h : q < 0
    · simp [PauliZGate, h, Except.isOk, Except.toBool]
    · simp [PauliZGate, h, Except.isOk, Except.toBool]
      omega
  · intro cq tq
    by_cases h : cq = tq
    · simp [CNOTGate, h, Except.isOk, Except.toBool]
    · simp [CNOTGate, h, Except.isOk, Except.toBool]
  · intro a q θ
    by_cases h : q < 0
    · simp [RotationGate, h, Except.isOk, Except.toBool]
    · by_cases ha : a ∈ (["X", "Y", "Z"] : List String)
      · simp only [List.mem_cons, List.not_mem_nil, or_false] at ha
        simp [RotationGate, h, Except.isOk, Except.toBool, ha]
        omega
      · simp only [List.mem_cons, List.not_mem_nil, or_false] at ha
        simp [RotationGate, h, Except.isOk, Except.toBool, ha]

/-- Claim C2, witness for the amended statement: a Hadamard gate on
qubit 0 constructs, a Hadamard gate on qubit -1 fails, a CNOT gate with
equal indices fails, and a rotation gate with axis W fails. -/
theorem claim_C2_amended_witness :
    (HadamardGate 0).isOk = true
    ∧ (HadamardGate (-1)).isOk ≠ true
    ∧ (CNOTGate 2 2).isOk ≠ true
    ∧ (RotationGate "W" 0 1).isOk ≠ true :=
  ⟨(claim_C2_amended.1 0).mpr (by norm_num),
   fun h => absurd ((claim_C2_amended.1 (-1)).mp h) (by norm_num),
   fun h => absurd ((claim_C2_amended.2.2.2.2.1 2 2).mp h) (by simp),
   fun h => absurd ((claim_C2_amended.2.2.2.2.2 "W" 0 1).mp h) (by simp)⟩

/-! ## Claim C3 -/

/-- Claim C3: the Circuit constructor performs no validation at all; at
the failing input numQubits = 0 (not a positive integer) construction
succeeds and simply stores 0, contradicting the claim that it must
fail. The specification itself flags the missing check as a defect of
the source. -/
theorem claim_C3_code : Circuit.construct 0 = { numQubits := 0, gates := [] } := rfl

/-! ## Claim C4 -/

lemma draw_baseline (c : Circuit) (s : StyleConfig) (i : ℕ) (hi : i < c.numQubits.toNat) :
    (Renderer.draw c s)[i + 1]? =
      some (SvgCall.line 0 (s.qubitSpacing * ((i : ℚ) + 1))
        (s.gateSpacing * ((c.gates.length : ℚ) + 1))
        (s.qubitSpacing * ((i : ℚ) + 1)) s.lineWidth s.lineColor) := by
  simp only [Renderer.draw, List.cons_append, List.getElem?_cons_succ]
  rw [List.getElem?_append]
  simp only [List.length_map, List.length_range]
  rw [if_pos hi]
  simp [List.getElem?_map, List.getElem?_range hi]

/-- Claim C4: for every qubit index i below numQubits, draw places the
baseline of qubit i (the call after the initial resize, at trace
position i + 1) at y = qubitSpacing times (i + 1), and every gate
dispatched to the single-qubit box strategy that targets qubit i
contributes a rectangle whose top edge is that same y minus half the
gate height, hence vertically centered on the baseline (third
conjunct). -/
theorem claim_C4 (c : Circuit) (s : StyleConfig) (i : ℕ) (hi : i < c.numQubits.toNat)
    (j : ℕ) (g : IGate) (hg : c.gates[j]? = some g)
    (hcls : Renderer.classify g = Renderer.DrawStrategy.singleBox)
    (hq : (i : ℤ) ∈ g.qubits) :
    (Renderer.draw c s)[i + 1]? =
      some (SvgCall.line 0 (s.qubitSpacing * ((i : ℚ) + 1))
        (s.gateSpacing * ((c.gates.length : ℚ) + 1))
        (s.qubitSpacing * ((i : ℚ) + 1)) s.lineWidth s.lineColor)
    ∧ SvgCall.rect s.gateWidth s.gateHeight
        (s.gateSpacing * ((j : ℚ) + 1) - s.gateWidth / 2)
        (s.qubitSpacing * ((i : ℚ) + 1) - s.gateHeight / 2)
        s.gateFill s.gateStrokeWidth s.gateStroke ∈ Renderer.draw c s
    ∧ (s.qubitSpacing * ((i : ℚ) + 1) - s.gateHeight / 2) + s.gateHeight / 2
        = s.qubitSpacing * ((i : ℚ) + 1) := by
  refine ⟨draw_baseline c s i hi, ?_, by ring⟩
  have hgc : Renderer.gateCalls s g (s.gateSpacing * ((j : ℚ) + 1))
      = Renderer.boxCalls s g.name s.fontSize (s.gateSpacing * ((j : ℚ) + 1)) g.qubits := by
    rw [Renderer.gateCalls, hcls]
    rfl
  have hmem := mem_boxCalls s g.name s.fontSize (s.gateSpacing * ((j : ℚ) + 1)) g.qubits
    (i : ℤ) hq
  push_cast at hmem
  have hmem2 : SvgCall.rect s.gateWidth s.gateHeight
      (s.gateSpacing * ((j : ℚ) + 1) - s.gateWidth / 2)
      (s.qubitSpacing * ((i : ℚ) + 1) - s.gateHeight / 2)
      s.gateFill s.gateStrokeWidth s.gateStroke ∈ Renderer.drawGatesFrom s 0 c.gates := by
    refine mem_drawGatesFrom s c.gates j g hg _ ?_
    rw [hgc]
    exact hmem
  exact List.mem_append_right _ hmem2

/-- Claim C4, witness: a one-qubit circuit holding one Hadamard gate on
qubit 0 with the default style. -/
theorem claim_C4_witness :
    (Renderer.draw { numQubits := 1, gates := [{ name := "H", qubits := [0] }] }
        DefaultStyleConfig)[0 + 1]? =
      some (SvgCall.line 0 (DefaultStyleConfig.qubitSpacing * ((0 : ℚ) + 1))
        (DefaultStyleConfig.gateSpacing * ((1 : ℚ) + 1))
        (DefaultStyleConfig.qubitSpacing * ((0 : ℚ) + 1))
        DefaultStyleConfig.lineWidth DefaultStyleConfig.lineColor)
    ∧ SvgCall.rect DefaultStyleConfig.gateWidth DefaultStyleConfig.gateHeight
        (DefaultStyleConfig.gateSpacing * ((0 : ℚ) + 1) - DefaultStyleConfig.gateWidth / 2)
        (DefaultStyleConfig.qubitSpacing * ((0 : ℚ) + 1) - DefaultStyleConfig.gateHeight / 2)
        DefaultStyleConfig.gateFill DefaultStyleConfig.gateStrokeWidth
        DefaultStyleConfig.gateStroke
      ∈ Renderer.draw { numQubits := 1, gates := [{ name := "H", qubits := [0] }] }
          DefaultStyleConfig := by
  have h := claim_C4 { numQubits := 1, gates := [{ name := "H", qubits := [0] }] }
    DefaultStyleConfig 0 (by decide) 0 { name := "H", qubits := [0] } (by decide) rfl
    (by decide)
  refine ⟨?_, ?_⟩
  · have h1 := h.1
    push_cast at h1 ⊢
    convert h1 using 4
  · have h2 := h.2.1
    push_cast at h2 ⊢
    exact h2

/-! ## Claim C5 -/

/-- Claim C5: the gate stored at sequence position j is drawn at
horizontal offset x = gateSpacing times (j + 1): its draw calls appear
in the trace with exactly that x argument (first conjunct); distinct
positions get distinct x offsets whenever gateSpacing is nonzero, so no
two gates share a column (second conjunct); and addGate appends at the
end of the gate list, so insertion order is column order (third
conjunct). -/
theorem claim_C5 (c : Circuit) (s : StyleConfig) (j : ℕ) (g : IGate)
    (h : c.gates[j]? = some g) :
    (∃ pre post, Renderer.draw c s =
        pre ++ Renderer.gateCalls s g (s.gateSpacing * ((j : ℚ) + 1)) ++ post)
    ∧ (∀ k : ℕ, s.gateSpacing ≠ 0 → k ≠ j →
        s.gateSpacing * ((k : ℚ) + 1) ≠ s.gateSpacing * ((j : ℚ) + 1))
    ∧ (∀ g2 : IGate, (c.addGate g2).gates = c.gates ++ [g2]) := by
  refine ⟨?_, ?_, fun g2 => rfl⟩
  · obtain ⟨pre, post, hp⟩ := drawGatesFrom_decompose s c.gates 0 j g h
    simp only [Nat.cast_zero, zero_add] at hp
    refine ⟨SvgCall.size (s.gateSpacing * ((c.gates.length : ℚ) + 1) + s.gateSpacing)
        (s.qubitSpacing * ((c.numQubits : ℚ) + 1))
      :: ((List.range c.numQubits.toNat).map fun (i : ℕ) =>
            SvgCall.line 0 (s.qubitSpacing * ((i : ℚ) + 1))
              (s.gateSpacing * ((c.gates.length : ℚ) + 1))
              (s.qubitSpacing * ((i : ℚ) + 1)) s.lineWidth s.lineColor)
      ++ pre, post, ?_⟩
    simp [Renderer.draw, hp]
  · intro k hs hk heq
    have h1 := mul_left_cancel₀ hs heq
    have h2 : (k : ℚ) = (j : ℚ) := by linarith
    exact hk (by exact_mod_cast h2)

/-- Claim C5, witness: a two-qubit circuit with one Hadamard gate;
appending a Pauli-X gate preserves order, and with the default style
columns 1 and 2 have different x offsets. -/
theorem claim_C5_witness :
    (({ numQubits := 2, gates := [{ name := "H", qubits := [0] }] } : Circuit).addGate
        { name := "X", qubits := [1] }).gates
      = [{ name := "H", qubits := [0] }, { name := "X", qubits := [1] }]
    ∧ DefaultStyleConfig.gateSpacing * ((1 : ℚ) + 1)
        ≠ DefaultStyleConfig.gateSpacing * ((0 : ℚ) + 1) := by
  have h := claim_C5 { numQubits := 2, gates := [{ name := "H", qubits := [0] }] }
    DefaultStyleConfig 0 { name := "H", qubits := [0] } (by decide)
  refine ⟨by simpa using h.2.2 { name := "X", qubits := [1] }, ?_⟩
  have h2 := h.2.1 1 (by norm_num [DefaultStyleConfig]) (by norm_num)
  exact_mod_cast h2

/-! ## Claim C6 -/

lemma rotationGate_Y_eval :
    RotationGate "Y" 1 (1 / 4)
      = Except.ok { name := "RY(45.0°)", qubits := [1], angle := 1 / 4 } := by
  unfold RotationGate toFixed1
  norm_num
  constructor

lemma rotationGate_Z_eval :
    RotationGate "Z" 0 1
      = Except.ok { name := "RZ(180.0°)", qubits := [0], angle := 1 } := by
  unfold RotationGate toFixed1
  norm_num
  constructor

/-- Claim C6: with angles measured as rational multiples of pi (see
RotationGateData), a rotation gate around Y with angle pi over 4 gets
the label RY(45.0°) and a rotation gate around Z with angle pi gets the
label RZ(180.0°), while the angle field keeps the constructor argument
unchanged; in general the label is R, the axis, and the angle converted
to degrees formatted by toFixed with one decimal. -/
theorem claim_C6 :
    (∀ r, RotationGate "Y" 1 (1 / 4) = Except.ok r →
        r.name = "RY(45.0°)" ∧ r.angle = 1 / 4)
    ∧ (∀ r, RotationGate "Z" 0 1 = Except.ok r →
        r.name = "RZ(180.0°)" ∧ r.angle = 1)
    ∧ (∀ (a : String) (q : ℤ) (θ : ℚ) r, RotationGate a q θ = Except.ok r →
        r.name = "R" ++ a ++ "(" ++ toFixed1 (θ * 180) ++ "°)" ∧ r.angle = θ) := by
  refine ⟨?_, ?_, ?_⟩
  · intro r h
    rw [rotationGate_Y_eval] at h
    injection h with h2
    subst h2
    exact ⟨rfl, rfl⟩
  · intro r h
    rw [rotationGate_Z_eval] at h
    injection h with h2
    subst h2
    exact ⟨rfl, rfl⟩
  · intro a q θ r h
    unfold RotationGate at h
    split at h
    · exact Except.noConfusion h
    · split at h
      · injection h with h2
        subst h2
        exact ⟨rfl, rfl⟩
      · exact Except.noConfusion h

/-- Claim C6, witness: the constructed RY gate record itself. -/
theorem claim_C6_witness :
    ({ name := "RY(45.0°)", qubits := [1], angle := 1 / 4 } : RotationGateData).name
        = "RY(45.0°)"
    ∧ ({ name := "RY(45.0°)", qubits := [1], angle := 1 / 4 } : RotationGateData).angle
        = 1 / 4 :=
  claim_C6.1 _ rotationGate_Y_eval

/-! ## Claim C7 -/

/-- Claim C7: for a gate with qubit list [cq, tq] the CNOT strategy
emits exactly five primitives, in order: a disc of diameter 8 centered
at (x, y1) filled with the gate stroke color; a connector line from
(x, y1) to (x, y2) in the line color and width, with no case split on
which of y1, y2 is larger; an open circle of diameter 20 centered at
(x, y2) filled white and stroked in the gate stroke style; and the two
plus-sign segments of half-length 5 centered at (x, y2); the constants
8, 20 and 5 do not depend on the style s. -/
theorem claim_C7 (s : StyleConfig) (g : IGate) (x : ℚ) (cq tq : ℤ)
    (h : g.qubits = [cq, tq]) :
    Renderer.drawCNOTGate s g x =
      [ SvgCall.circle 8 (x - 8 / 2) (s.qubitSpacing * ((cq : ℚ) + 1) - 8 / 2)
          s.gateStroke none,
        SvgCall.line x (s.qubitSpacing * ((cq : ℚ) + 1))
          x (s.qubitSpacing * ((tq : ℚ) + 1)) s.lineWidth s.lineColor,
        SvgCall.circle 20 (x - 20 / 2) (s.qubitSpacing * ((tq : ℚ) + 1) - 20 / 2)
          "#fff" (some (s.gateStrokeWidth, s.gateStroke)),
        SvgCall.line (x - 5) (s.qubitSpacing * ((tq : ℚ) + 1))
          (x + 5) (s.qubitSpacing * ((tq : ℚ) + 1)) s.gateStrokeWidth s.gateStroke,
        SvgCall.line x (s.qubitSpacing * ((tq : ℚ) + 1) - 5)
          x (s.qubitSpacing * ((tq : ℚ) + 1) + 5) s.gateStrokeWidth s.gateStroke ] := by
  simp only [Renderer.drawCNOTGate, h, List.getD_cons_zero, List.getD_cons_succ]
  norm_num

/-- Claim C7, witness: a CNOT gate from qubit 0 to qubit 1 at x = 70
with the default style. -/
theorem claim_C7_witness :
    Renderer.drawCNOTGate DefaultStyleConfig { name := "CNOT", qubits := [0, 1] } 70 =
      [ SvgCall.circle 8 66 46 "#000" none,
        SvgCall.line 70 50 70 100 2 "#000",
        SvgCall.circle 20 60 90 "#fff" (some (2, "#000")),
        SvgCall.line 65 100 75 100 2 "#000",
        SvgCall.line 70 95 70 105 2 "#000" ] := by
  have h := claim_C7 DefaultStyleConfig { name := "CNOT", qubits := [0, 1] } 70 0 1 rfl
  rw [h]
  norm_num [DefaultStyleConfig]

/-! ## Claim C8 -/

/-- Claim C8: draw is deterministic; two invocations with the same
circuit and style on fresh (empty) surfaces emit the same sequence of
primitive calls (draw reads nothing but the circuit and the style). -/
theorem claim_C8 (c : Circuit) (s : StyleConfig) (t1 t2 : List SvgCall)
    (h1 : t1 = []) (h2 : t2 = []) :
    Renderer.drawOn c s t1 = Renderer.drawOn c s t2 := by
  rw [h1, h2]

/-- Claim C8, witness: two fresh surfaces for a one-qubit circuit. -/
theorem claim_C8_witness :
    Renderer.drawOn (Circuit.construct 1) DefaultStyleConfig []
      = Renderer.drawOn (Circuit.construct 1) DefaultStyleConfig [] :=
  claim_C8 (Circuit.construct 1) DefaultStyleConfig [] [] rfl rfl

/-! ## Claim C9 -/

lemma classify_of_rotationGate (a : String) (q : ℤ) (θ : ℚ) (r : RotationGateData)
    (h : RotationGate a q θ = Except.ok r) :
    Renderer.classify r.toIGate = Renderer.DrawStrategy.rotationBox := by
  unfold RotationGate at h
  split at h
  · exact Except.noConfusion h
  · split at h
    · injection h with h2
      subst h2
      show Renderer.classify
        { name := "R" ++ a ++ "(" ++ toFixed1 (θ * 180) ++ "°)", qubits := [q] } = _
      rw [String.append_assoc, String.append_assoc, String.append_assoc]
      exact classify_R_append _ _
    · exact Except.noConfusion h

/-- Claim C9: every gate produced by the shipped constructors is
dispatched to the strategy matching its class: Hadamard and the three
Pauli gates (names H, X, Y, Z) go to the single-qubit box strategy, a
CNOT gate (name CNOT) to the control-target strategy, and a rotation
gate (name starting with R) to the rotation-box strategy; the
name-based heuristic misclassifies none of them. -/
theorem claim_C9 :
    (∀ (q : ℤ) (g : IGate), HadamardGate q = Except.ok g →
        Renderer.classify g = Renderer.DrawStrategy.singleBox)
    ∧ (∀ (q : ℤ) (g : IGate), PauliXGate q = Except.ok g →
        Renderer.classify g = Renderer.DrawStrategy.singleBox)
    ∧ (∀ (q : ℤ) (g : IGate), PauliYGate q = Except.ok g →
        Renderer.classify g = Renderer.DrawStrategy.singleBox)
    ∧ (∀ (q : ℤ) (g : IGate), PauliZGate q = Except.ok g →
        Renderer.classify g = Renderer.DrawStrategy.singleBox)
    ∧ (∀ (cq tq : ℤ) (g : IGate), CNOTGate cq tq = Except.ok g →
        Renderer.classify g = Renderer.DrawStrategy.cnot)
    ∧ (∀ (a : String) (q : ℤ) (θ : ℚ) (r : RotationGateData),
        RotationGate a q θ = Except.ok r →
          Renderer.classify r.toIGate = Renderer.DrawStrategy.rotationBox) := by
  refine ⟨?_, ?_, ?_, ?_, ?_, classify_of_rotationGate⟩
  · intro q g h
    unfold HadamardGate at h
    split at h
    · exact Except.noConfusion h
    · injection h with h2
      subst h2
      rfl
  · intro q g h
    unfold PauliXGate at h
    split at h
    · exact Except.noConfusion h
    · injection h with h2
      subst h2
      rfl
  · intro q g h
    unfold PauliYGate at h
    split at h
    · exact Except.noConfusion h
    · injection h with h2
      subst h2
      rfl
  · intro q g h
    unfold PauliZGate at h
    split at h
    · exact Except.noConfusion h
    · injection h with h2
      subst h2
      rfl
  · intro cq tq g h
    unfold CNOTGate at h
    split at h
    · exact Except.noConfusion h
    · injection h with h2
      subst h2
      rfl

/-- Claim C9, witness: one concrete gate per strategy. -/
theorem claim_C9_witness :
    Renderer.classify { name := "H", qubits := [0] } = Renderer.DrawStrategy.singleBox
    ∧ Renderer.classify { name := "CNOT", qubits := [0, 1] } = Renderer.DrawStrategy.cnot
    ∧ Renderer.classify { name := "RY(45.0°)", qubits := [1] }
        = Renderer.DrawStrategy.rotationBox :=
  ⟨claim_C9.1 0 _ rfl,
   claim_C9.2.2.2.2.1 0 1 _ rfl,
   claim_C9.2.2.2.2.2 "Y" 1 (1 / 4) _ rotationGate_Y_eval⟩

/-! ## Claim C10 -/

/-- A gate value obtainable from the shipped public constructors. -/
def ShippedGate (g : IGate) : Prop :=
  (∃ q, HadamardGate q = Except.ok g)
  ∨ (∃ q, PauliXGate q = Except.ok g)
  ∨ (∃ q, PauliYGate q = Except.ok g)
  ∨ (∃ q, PauliZGate q = Except.ok g)
  ∨ (∃ cq tq, CNOTGate cq tq = Except.ok g)
  ∨ (∃ a q θ r, RotationGate a q θ = Except.ok r ∧ g = RotationGateData.toIGate r)

/-- Claim C10: every gate built through the public constructors carries
exactly two qubit indices when it dispatches to the CNOT strategy and
exactly one otherwise, so the accesses qubits[0] and qubits[1] in
drawCNOTGate are in bounds for every shipped gate that reaches the CNOT
branch. -/
theorem claim_C10 (g : IGate) (h : ShippedGate g) :
    (Renderer.classify g = Renderer.DrawStrategy.cnot → g.qubits.length = 2)
    ∧ (Renderer.classify g ≠ Renderer.DrawStrategy.cnot → g.qubits.length = 1) := by
  unfold ShippedGate at h
  rcases h with ⟨q, hq⟩ | ⟨q, hq⟩ | ⟨q, hq⟩ | ⟨q, hq⟩ | ⟨cq, tq, hq⟩ | ⟨a, q, θ, r, hq, rfl⟩
  · unfold HadamardGate at hq
    split at hq
    · exact Except.noConfusion hq
    · injection hq with h2
      subst h2
      exact ⟨fun hcl => Renderer.DrawStrategy.noConfusion hcl, fun _ => rfl⟩
  · unfold PauliXGate at hq
    split at hq
    · exact Except.noConfusion hq
    · injection hq with h2
      subst h2
      exact ⟨fun hcl => Renderer.DrawStrategy.noConfusion hcl, fun _ => rfl⟩
  · unfold PauliYGate at hq
    split at hq
    · exact Except.noConfusion hq
    · injection hq with h2
      subst h2
      exact ⟨fun hcl => Renderer.DrawStrategy.noConfusion hcl, fun _ => rfl⟩
  · unfold PauliZGate at hq
    split at hq
    · exact Except.noConfusion hq
    · injection hq with h2
      subst h2
      exact ⟨fun hcl => Renderer.DrawStrategy.noConfusion hcl, fun _ => rfl⟩
  · unfold CNOTGate at hq
    split at hq
    · exact Except.noConfusion hq
    · injection hq with h2
      subst h2
      exact ⟨fun _ => rfl, fun hne => absurd rfl hne⟩
  · have hcls := classify_of_rotationGate a q θ r hq
    refine ⟨fun hcl => ?_, fun _ => ?_⟩
    · rw [hcls] at hcl
      exact Renderer.DrawStrategy.noConfusion hcl
    · unfold RotationGate at hq
      split at hq
      · exact Except.noConfusion hq
      · split at hq
        · injection hq with h2
          subst h2
          rfl
        · exact Except.noConfusion hq

/-- Claim C10, witness: the CNOT gate from qubit 0 to qubit 1 reaches
the CNOT branch and has exactly two qubit entries. -/
theorem claim_C10_witness :
    ({ name := "CNOT", qubits := [0, 1] } : IGate).qubits.length = 2 :=
  (claim_C10 { name := "CNOT", qubits := [0, 1] }
    (Or.inr (Or.inr (Or.inr (Or.inr (Or.inl ⟨0, 1, rfl⟩)))))).1 rfl
